import Mathlib

/-!
Verification development for the HTPI customer portal gateway (`src/app.py`).

The gateway is a Flask-SocketIO server.  Its shared mutable state is the
dictionary `connected_clients` (socket id → per-connection record) and the
Socket.IO room tables.  We embed that state as association lists over
`String` keys, and each Socket.IO event handler as a pure function
`GatewayState → ... → GatewayState × List Delivery`, where a `Delivery`
records one message delivered to one socket.

Modelling decisions, all taken from the source:
* `emit(event, payload)` inside a handler delivers to the calling socket only;
  `socketio.emit(..., room=r)` delivers to every current member of room `r`
  (when `r` is `None`, Socket.IO broadcasts to every connected socket, which we
  model as the union of all room members — every connected socket sits in the
  room named by its own sid, which Socket.IO joins automatically on connect).
* `publish_to_nats` in the source returns `None` on every control path (the
  body documents this as the sync-mode limitation); the embedding keeps its
  three paths (bus down / unknown subject key / known subject key) and, like
  the source, yields `none` from each.
* The handlers `handle_select_tenant`, `handle_dashboard_subscribe`,
  `handle_patients_subscribe` and `handle_add_patient` contain
  `await nc.request(...)` calls; we embed the value produced by each such bus
  round trip as an explicit parameter, with `none` standing for the call
  raising (timeout / decode failure), which the source catches in its
  `except` block.
* Python `dict` reads that can raise `KeyError`/`TypeError` (e.g.
  `client['user']['id']` when `user` is `None`) are embedded as matches whose
  failing branch lands in the handler's `except` path, exactly as the
  interpreter would.
-/

/-- Association-list lookup over string keys, the embedding of a Python
`dict` read (`d.get(k)` / `k in d`). -/
def alookup {α : Type} : List (String × α) → String → Option α
  | [], _ => none
  | (k2, v) :: rest, k => if k2 = k then some v else alookup rest k

/-- Association-list update, the embedding of `d[k] = v`. -/
def aset {α : Type} : List (String × α) → String → α → List (String × α)
  | [], k, v => [(k, v)]
  | (k2, v2) :: rest, k, v =>
      if k2 = k then (k2, v) :: rest else (k2, v2) :: aset rest k v

/-- Association-list deletion, the embedding of `del d[k]` guarded by
`if k in d` (deleting an absent key is a no-op). -/
def adel {α : Type} : List (String × α) → String → List (String × α)
  | [], _ => []
  | (k2, v) :: rest, k => if k2 = k then rest else (k2, v) :: adel rest k

/-- The user record carried in auth replies; the source reads the keys
`id`, `email` and `name` of this dict. -/
structure User where
  id : String
  email : String
  name : String
deriving DecidableEq

/-- One entry of `connected_clients`: the per-connection record created by
`handle_connect` and mutated by the login / tenant handlers. -/
structure ClientEntry where
  sid : String
  authenticated : Bool
  user : Option User
  token : Option String
  tenant_id : Option String
deriving DecidableEq

/-- The gateway's shared mutable state: the `connected_clients` dict, the
Socket.IO room tables (room name → member sids), and whether the global NATS
client `nc` exists and is connected. -/
structure GatewayState where
  connected_clients : List (String × ClientEntry)
  rooms : List (String × List String)
  ncConnected : Bool
deriving DecidableEq

/-- Client-facing messages the gateway can emit, one constructor per
event-name/payload shape appearing in `src/app.py`. -/
inductive Msg where
  | connected (message : String)
  | errorMsg (message : String)
  | authLoginOk (user : Option User) (token : Option String)
  | authLoginErr (error : String)
  | tenantsList (tenants : List String) (error : Option String)
  | tenantSelectOk (tenant_id : Option String)
  | tenantSelectErr (error : String)
  | dashboardStats (stats : String)
  | dashboardActivity (activities : List String)
  | patientsList (patients : List String)
  | patientsNew (patient : String)
  | patientsAddOk (patient : String)
  | patientsAddErr (error : String)
deriving DecidableEq

/-- One message delivered to one socket. -/
structure Delivery where
  target : String
  msg : Msg
deriving DecidableEq

/-- Members of a room (`[]` when the room does not exist). -/
def roomMembers (st : GatewayState) (room : String) : List String :=
  (alookup st.rooms room).getD []

/-- The embedding of `join_room`: add the sid to the room, creating the room
on first join; joining twice is a no-op (rooms are member sets). -/
def joinRoom (st : GatewayState) (room : String) (cid : String) : GatewayState :=
  let ms := roomMembers st room
  if cid ∈ ms then st
  else { st with rooms := aset st.rooms room (ms ++ [cid]) }

/-- Python `f"...{x}"` interpolation of a value that may be `None`. -/
def pyStr : Option String → String
  | some s => s
  | none => "None"

/-- Sids of every connected socket: every socket is a member of the room
named by its own sid, so the union of all room members covers them. -/
def allSids (st : GatewayState) : List String :=
  ((st.rooms.map Prod.snd).flatten).dedup

/-- The embedding of `socketio.emit(event, payload, room=r)`: deliver to every
member of `r`, or to every connected socket when `r` is `None`. -/
def emitToRoom (st : GatewayState) (room : Option String) (m : Msg) : List Delivery :=
  match room with
  | some r => (roomMembers st r).map (fun s => Delivery.mk s m)
  | none => (allSids st).map (fun s => Delivery.mk s m)

/-- The guard `client = connected_clients.get(cid); not client or not
client.get('authenticated')`, as a Bool (true ↔ the guard passes). -/
def clientAuthed (st : GatewayState) (cid : String) : Bool :=
  match alookup st.connected_clients cid with
  | some c => c.authenticated
  | none => false

/-- The `user` field of a connection's registry entry, `none` when the entry
is absent or holds no user. -/
def clientUser (st : GatewayState) (cid : String) : Option User :=
  match alookup st.connected_clients cid with
  | some c => c.user
  | none => none

/-- The `NATS_SUBJECTS` mapping of `src/app.py`. -/
def NATS_SUBJECTS : List (String × String) :=
  [("auth.login", "htpi.auth.login"),
   ("auth.verify", "htpi.auth.verify"),
   ("tenant.list.for.user", "htpi.tenant.list.for.user"),
   ("tenant.verify.access", "htpi.tenant.verify.access"),
   ("patient.list", "htpi.patient.list"),
   ("patient.get", "htpi.patient.get"),
   ("dashboard.get.stats", "htpi.dashboard.get.stats"),
   ("dashboard.get.activity", "htpi.dashboard.get.activity"),
   ("insurance.list.for.patient", "htpi.insurance.list.for.patient"),
   ("claims.list.for.patient", "htpi.claims.list.for.patient"),
   ("claims.get", "htpi.claims.get")]

/-- The embedding of `publish_to_nats(subject_key, data)`.  The source
returns `None` when the bus is down, `None` for an unknown subject key, and —
as its own comment says, the sync-mode limitation — `None` after logging on
the successful path too.  `α` is the reply type the caller expects. -/
def publish_to_nats (α : Type) (ncConnected : Bool) (subject_key : String) : Option α :=
  if ncConnected = false then none
  else
    match alookup NATS_SUBJECTS subject_key with
    | none => none
    | some _subject => none

/-- A fresh registry entry, `{'sid': cid, 'authenticated': False}`. -/
def freshEntry (cid : String) : ClientEntry :=
  ClientEntry.mk cid false none none none

/-- The embedding of the `connect` event: Socket.IO first places the socket
in the room named by its sid, then `handle_connect` unconditionally writes a
fresh unauthenticated entry and emits the `connected` greeting. -/
def handle_connect (st : GatewayState) (cid : String) : GatewayState × List Delivery :=
  let st1 := joinRoom st cid cid
  let st2 := { st1 with connected_clients := aset st1.connected_clients cid (freshEntry cid) }
  (st2, [Delivery.mk cid (Msg.connected ("Connected to customer portal"))])

/-- The embedding of the `disconnect` event: `handle_disconnect` deletes the
registry entry, and Socket.IO removes the socket from every room. -/
def handle_disconnect (st : GatewayState) (cid : String) : GatewayState × List Delivery :=
  let st1 := { st with connected_clients := adel st.connected_clients cid }
  let st2 := { st1 with rooms := st1.rooms.map (fun p => (p.1, p.2.filter (fun s => decide (s ≠ cid)))) }
  (st2, [])

/-- Payload of `auth:login`. -/
structure LoginData where
  email : Option String
  password : Option String
deriving DecidableEq

/-- Shape of a reply to the `auth.login` bus call, were one ever returned. -/
structure AuthBusResult where
  success : Bool
  user : Option User
  token : Option String
  error : Option String
deriving DecidableEq

/-- The embedding of `handle_login` (`auth:login`).  It calls
`publish_to_nats('auth.login', ...)`; if that yielded a successful result it
would mark the entry authenticated, store user and token, join
`user:{id}` and emit success (a `KeyError`/`TypeError` on a missing entry or
`None` user lands in the `except` branch, which emits the generic failure);
with `None` — the only value `publish_to_nats` can produce — it emits the
service-unavailable failure.  There is no state-machine guard: the handler
runs in any connection state. -/
def handle_login (st : GatewayState) (cid : String) (_d : LoginData) :
    GatewayState × List Delivery :=
  match publish_to_nats AuthBusResult st.ncConnected ("auth.login") with
  | some r =>
    if r.success then
      match alookup st.connected_clients cid with
      | none => (st, [Delivery.mk cid (Msg.authLoginErr ("Authentication failed"))])
      | some c =>
        let c1 := { c with authenticated := true, user := r.user, token := r.token }
        let st1 := { st with connected_clients := aset st.connected_clients cid c1 }
        match r.user with
        | none => (st1, [Delivery.mk cid (Msg.authLoginErr ("Authentication failed"))])
        | some u =>
          let st2 := joinRoom st1 ("user:" ++ u.id) cid
          (st2, [Delivery.mk cid (Msg.authLoginOk (some u) r.token)])
    else
      (st, [Delivery.mk cid (Msg.authLoginErr (r.error.getD ("Invalid credentials")))])
  | none => (st, [Delivery.mk cid (Msg.authLoginErr ("Authentication service unavailable"))])

/-- Shape of a reply to the `tenant.list.for.user` bus call. -/
structure TenantsBusResult where
  tenants : List String
deriving DecidableEq

/-- The embedding of `handle_list_tenants` (`user:tenants:list`): guard on
authentication, read `client['user']` (a `None` user raises and lands in the
`except` branch), call `publish_to_nats`, and emit either the forwarded list
or the empty list flagged with the service-unavailable error. -/
def handle_list_tenants (st : GatewayState) (cid : String) :
    GatewayState × List Delivery :=
  if clientAuthed st cid = false then
    (st, [Delivery.mk cid (Msg.errorMsg ("Not authenticated"))])
  else
    match clientUser st cid with
    | none => (st, [Delivery.mk cid (Msg.errorMsg ("Failed to load tenants"))])
    | some _u =>
      match publish_to_nats TenantsBusResult st.ncConnected ("tenant.list.for.user") with
      | some r => (st, [Delivery.mk cid (Msg.tenantsList r.tenants none)])
      | none =>
          (st, [Delivery.mk cid (Msg.tenantsList [] (some ("Service temporarily unavailable")))])

/-- Write `connected_clients[cid]['tenant_id'] = tid` (the entry is present
whenever this runs, since the guard already found it). -/
def setClientTenant (st : GatewayState) (cid : String) (tid : Option String) : GatewayState :=
  match alookup st.connected_clients cid with
  | some c =>
    let c1 := { c with tenant_id := tid }
    { st with connected_clients := aset st.connected_clients cid c1 }
  | none => st

/-- The embedding of `handle_select_tenant` (`user:tenant:select`).
`verifyReply` is the value of `await nc.request('tenants.verify_access', ...)`
parsed down to its `has_access` field; `none` means the request raised, which
the `except` branch turns into the generic failure.  When the bus is down the
source falls through its `if nc and nc.is_connected:` with no `else` and emits
nothing.  On access granted it joins `tenant:{tid}` and records `tenant_id` —
it never leaves any previously joined room. -/
def handle_select_tenant (st : GatewayState) (cid : String) (tenantId : Option String)
    (verifyReply : Option Bool) : GatewayState × List Delivery :=
  if clientAuthed st cid = false then
    (st, [Delivery.mk cid (Msg.errorMsg ("Not authenticated"))])
  else if st.ncConnected then
    match clientUser st cid with
    | none => (st, [Delivery.mk cid (Msg.tenantSelectErr ("Failed to select tenant"))])
    | some _u =>
      match verifyReply with
      | none => (st, [Delivery.mk cid (Msg.tenantSelectErr ("Failed to select tenant"))])
      | some has_access =>
        if has_access then
          let st1 := joinRoom st ("tenant:" ++ pyStr tenantId) cid
          let st2 := setClientTenant st1 cid tenantId
          (st2, [Delivery.mk cid (Msg.tenantSelectOk tenantId)])
        else
          (st, [Delivery.mk cid (Msg.tenantSelectErr ("Access denied to this tenant"))])
  else (st, [])

/-- The embedding of `handle_dashboard_subscribe` (`dashboard:subscribe`).
The room is joined before the bus availability check; `statsReply` and
`activityReply` are the two awaited bus round trips, `none` meaning the call
raised (caught by `except`, which emits the load-failure error after whatever
was already emitted). -/
def handle_dashboard_subscribe (st : GatewayState) (cid : String) (tenantId : Option String)
    (statsReply : Option String) (activityReply : Option (List String)) :
    GatewayState × List Delivery :=
  if clientAuthed st cid = false then
    (st, [Delivery.mk cid (Msg.errorMsg ("Not authenticated"))])
  else
    let st1 := joinRoom st ("dashboard:" ++ pyStr tenantId) cid
    if st1.ncConnected then
      match clientUser st1 cid with
      | none => (st1, [Delivery.mk cid (Msg.errorMsg ("Failed to load dashboard data"))])
      | some _u =>
        match statsReply with
        | none => (st1, [Delivery.mk cid (Msg.errorMsg ("Failed to load dashboard data"))])
        | some stats =>
          match activityReply with
          | none => (st1, [Delivery.mk cid (Msg.dashboardStats stats),
                           Delivery.mk cid (Msg.errorMsg ("Failed to load dashboard data"))])
          | some acts => (st1, [Delivery.mk cid (Msg.dashboardStats stats),
                                Delivery.mk cid (Msg.dashboardActivity acts)])
    else (st1, [])

/-- The embedding of `handle_patients_subscribe` (`patients:subscribe`): join
`patients:{tid}` first, then, if the bus is up, await the patient list
(`none` = the call raised) and emit it. -/
def handle_patients_subscribe (st : GatewayState) (cid : String) (tenantId : Option String)
    (listReply : Option (List String)) : GatewayState × List Delivery :=
  if clientAuthed st cid = false then
    (st, [Delivery.mk cid (Msg.errorMsg ("Not authenticated"))])
  else
    let st1 := joinRoom st ("patients:" ++ pyStr tenantId) cid
    if st1.ncConnected then
      match clientUser st1 cid with
      | none => (st1, [Delivery.mk cid (Msg.errorMsg ("Failed to load patients"))])
      | some _u =>
        match listReply with
        | none => (st1, [Delivery.mk cid (Msg.errorMsg ("Failed to load patients"))])
        | some ps => (st1, [Delivery.mk cid (Msg.patientsList ps)])
    else (st1, [])

/-- Shape of a reply to the `patients.create` bus call. -/
structure CreateReply where
  success : Bool
  patient : Option String
  error : Option String
deriving DecidableEq

/-- The embedding of `handle_add_patient` (`patients:add`).  The guard checks
only authentication (tenant selection is never examined).  `tenantId` is
`data['tenantId']` (`none` = key absent, whose `KeyError` lands in `except`),
`createReply` the awaited `patients.create` round trip.  On success the source
first broadcasts `patients:new` to room `patients:{tenantId}` and then emits
the direct `patients:add:response` to the caller; with the bus down it falls
off the `if nc and nc.is_connected:` and emits nothing. -/
def handle_add_patient (st : GatewayState) (cid : String) (tenantId : Option String)
    (createReply : Option CreateReply) : GatewayState × List Delivery :=
  if clientAuthed st cid = false then
    (st, [Delivery.mk cid (Msg.errorMsg ("Not authenticated"))])
  else
    match clientUser st cid with
    | none => (st, [Delivery.mk cid (Msg.patientsAddErr ("Failed to add patient"))])
    | some _u =>
      if st.ncConnected then
        match createReply with
        | none => (st, [Delivery.mk cid (Msg.patientsAddErr ("Failed to add patient"))])
        | some r =>
          if r.success then
            match r.patient, tenantId with
            | some p, some t =>
                (st, (roomMembers st ("patients:" ++ t)).map
                        (fun m => Delivery.mk m (Msg.patientsNew p))
                     ++ [Delivery.mk cid (Msg.patientsAddOk p)])
            | _, _ => (st, [Delivery.mk cid (Msg.patientsAddErr ("Failed to add patient"))])
          else
            (st, [Delivery.mk cid (Msg.patientsAddErr (r.error.getD ("Failed to add patient")))])
      else (st, [])

/-- Payload of a message on `customer.auth.response.*`. -/
structure AuthRespData where
  clientId : Option String
  success : Bool
  user : Option User
  token : Option String
  error : Option String
deriving DecidableEq

/-- The embedding of the NATS callback `handle_auth_response`: on success it
updates the registry entry (only if the client id is still present) and emits
the success payload to room `clientId`; on failure it emits the failure to
room `clientId`.  It joins no room. -/
def handle_auth_response (st : GatewayState) (d : AuthRespData) :
    GatewayState × List Delivery :=
  if d.success then
    let st1 :=
      match d.clientId with
      | some cid =>
        match alookup st.connected_clients cid with
        | some c =>
          let c1 := { c with authenticated := true, user := d.user, token := d.token }
          { st with connected_clients := aset st.connected_clients cid c1 }
        | none => st
      | none => st
    (st1, emitToRoom st1 d.clientId (Msg.authLoginOk d.user d.token))
  else
    (st, emitToRoom st d.clientId (Msg.authLoginErr (d.error.getD ("Authentication failed"))))

/-- Payload of a message on `customer.tenants.response.*`. -/
structure TenantRespData where
  clientId : Option String
  tenants : List String
deriving DecidableEq

/-- The embedding of the NATS callback `handle_tenant_response`: forward the
tenant list to room `clientId`, touching no state. -/
def handle_tenant_response (st : GatewayState) (d : TenantRespData) :
    GatewayState × List Delivery :=
  (st, emitToRoom st d.clientId (Msg.tenantsList d.tenants none))

/-- Looking up the key just written returns the written value. -/
theorem alookup_aset_self {α : Type} (l : List (String × α)) (k : String) (v : α) :
    alookup (aset l k v) k = some v := by
  induction l with
  | nil => simp [aset, alookup]
  | cons hd tl ih =>
    obtain ⟨k3, v3⟩ := hd
    by_cases h : k3 = k <;> simp [aset, alookup, h, ih]

/-- Writing one key leaves every other key's lookup unchanged. -/
theorem alookup_aset_ne {α : Type} (l : List (String × α)) (k k2 : String) (v : α)
    (h : k2 ≠ k) : alookup (aset l k v) k2 = alookup l k2 := by
  induction l with
  | nil =>
    have hk : ¬ (k = k2) := fun hh => h hh.symm
    simp [aset, alookup, hk]
  | cons hd tl ih =>
    obtain ⟨k3, v3⟩ := hd
    by_cases h3 : k3 = k
    · have hne : ¬ (k3 = k2) := fun hh => h (hh ▸ h3)
      have hk : ¬ (k = k2) := h3 ▸ hne
      simp [aset, alookup, h3, hne, hk]
    · simp [aset, alookup, h3, ih]

/-- The source's `publish_to_nats` returns `None` on every control path. -/
theorem publish_to_nats_eq_none (α : Type) (b : Bool) (k : String) :
    publish_to_nats α b k = none := by
  unfold publish_to_nats
  split
  · rfl
  · split <;> rfl

/-- Membership after a `join_room`: the joined room gains the sid, every
other room is untouched. -/
theorem roomMembers_joinRoom (st : GatewayState) (room cid r : String) :
    roomMembers (joinRoom st room cid) r =
      if cid ∈ roomMembers st room then roomMembers st r
      else if r = room then roomMembers st room ++ [cid] else roomMembers st r := by
  unfold joinRoom roomMembers
  by_cases h : cid ∈ (alookup st.rooms room).getD []
  · simp [h]
  · by_cases h2 : r = room
    · subst h2
      simp [h, alookup_aset_self]
    · simp [h, h2, alookup_aset_ne _ _ _ _ h2]

/-- `join_room` never removes anybody from any room. -/
theorem mem_roomMembers_joinRoom {m : String} (st : GatewayState) (room cid r : String)
    (hm : m ∈ roomMembers st r) : m ∈ roomMembers (joinRoom st room cid) r := by
  rw [roomMembers_joinRoom]
  split
  · exact hm
  · split
    · next h => exact List.mem_append_left _ (h ▸ hm)
    · exact hm

/-- Writing a `tenant_id` into the registry touches no room table. -/
theorem setClientTenant_rooms (st : GatewayState) (cid : String) (tid : Option String) :
    (setClientTenant st cid tid).rooms = st.rooms := by
  unfold setClientTenant
  split <;> rfl

/-- Room membership is unchanged by `setClientTenant`. -/
theorem roomMembers_setClientTenant (st : GatewayState) (cid : String)
    (tid : Option String) (r : String) :
    roomMembers (setClientTenant st cid tid) r = roomMembers st r := by
  unfold roomMembers
  rw [setClientTenant_rooms]

/-- The demo user of the spec's mock scenario. -/
def demoUser : User := User.mk ("user-001") ("demo@htpi.com") ("Demo User")

/-- Start state: no clients, no rooms, bus connected. -/
def stEmpty : GatewayState := GatewayState.mk [] [] true

/-- After `connect` of socket `c1`. -/
def stConn : GatewayState := (handle_connect stEmpty ("c1")).1

/-- After the bus-driven auth reply authenticates `c1`. -/
def stAuth : GatewayState :=
  (handle_auth_response stConn
    (AuthRespData.mk (some ("c1")) true (some demoUser) (some ("tok")) none)).1

/-- Claim C9: processing the `connect` event unconditionally overwrites the
client id's registry entry with a fresh `{authenticated: false}` record —
even over an existing authenticated entry all previous fields are lost — and
emits the `connected` greeting. -/
theorem c9_connect_overwrites_entry (st : GatewayState) (cid : String) :
    alookup (handle_connect st cid).1.connected_clients cid = some (freshEntry cid) ∧
    (handle_connect st cid).2
      = [Delivery.mk cid (Msg.connected ("Connected to customer portal"))] := by
  constructor
  · simp [handle_connect, alookup_aset_self]
  · rfl

/-- Claim C5: `user:tenants:list` emits the not-authenticated error for a
connection that is absent or unauthenticated; for an authenticated connection
(whose entry holds a user, as every authenticated entry the gateway writes
does) it emits the tenant-list response — because `publish_to_nats` cannot
answer, that response is the empty list flagged with the service-unavailable
error; and no invocation is a silent omission: something is always emitted. -/
theorem c5_listTenants_always_answers (st : GatewayState) (cid : String) :
    (clientAuthed st cid = false →
      handle_list_tenants st cid
        = (st, [Delivery.mk cid (Msg.errorMsg ("Not authenticated"))])) ∧
    (∀ u : User, clientAuthed st cid = true → clientUser st cid = some u →
      handle_list_tenants st cid
        = (st, [Delivery.mk cid
            (Msg.tenantsList [] (some ("Service temporarily unavailable")))])) ∧
    (handle_list_tenants st cid).2 ≠ [] := by
  refine ⟨fun h => ?_, fun u h hu => ?_, ?_⟩
  · simp [handle_list_tenants, h]
  · simp [handle_list_tenants, h, hu, publish_to_nats_eq_none]
  · by_cases h : clientAuthed st cid = false
    · simp [handle_list_tenants, h]
    · cases hu : clientUser st cid <;>
        simp [handle_list_tenants, h, hu, publish_to_nats_eq_none]

/-- Witness for C5: a never-seen connection gets the not-authenticated
error, and the authenticated demo connection gets the flagged empty list. -/
theorem c5_witness :
    handle_list_tenants stEmpty ("cX")
      = (stEmpty, [Delivery.mk ("cX") (Msg.errorMsg ("Not authenticated"))]) ∧
    handle_list_tenants stAuth ("c1")
      = (stAuth, [Delivery.mk ("c1")
          (Msg.tenantsList [] (some ("Service temporarily unavailable")))]) :=
  ⟨(c5_listTenants_always_answers stEmpty ("cX")).1 (by decide),
   (c5_listTenants_always_answers stAuth ("c1")).2.1 demoUser (by decide) (by decide)⟩

/-- Counterexample for C4: `auth:login` is not restricted to
pre-`Authenticated` connections.  `stAuth` holds an authenticated entry for
`c1`; the handler still processes its login, answers it, and afterwards the
connection is still `Authenticated`, contradicting both "only valid
pre-`Authenticated`" and "on failure the connection remains
`Unauthenticated`". -/
theorem c4_counterexample :
    clientAuthed stAuth ("c1") = true ∧
    handle_login stAuth ("c1") (LoginData.mk (some ("demo@htpi.com")) (some ("demo123")))
      = (stAuth, [Delivery.mk ("c1")
          (Msg.authLoginErr ("Authentication service unavailable"))]) ∧
    clientAuthed (handle_login stAuth ("c1")
        (LoginData.mk (some ("demo@htpi.com")) (some ("demo123")))).1 ("c1") = true := by
  decide

/-- Claim C4 (amended): `auth:login` carries no state-machine guard and is
processed in every connection state; since `publish_to_nats` returns `None`
on every path, every invocation emits `auth:login:response` with
`success:false` and error `Authentication service unavailable`, and leaves
the registry and every room unchanged (so the success behaviour — store
user+token, join `user:{id}`, emit user and token — sits on an unreachable
branch of `handle_login`). -/
theorem c4_login_always_service_unavailable (st : GatewayState) (cid : String)
    (d : LoginData) :
    handle_login st cid d
      = (st, [Delivery.mk cid (Msg.authLoginErr ("Authentication service unavailable"))]) := by
  simp [handle_login, publish_to_nats_eq_none]

/-- Counterexample for C6: in the bus-less (standalone) configuration the
spec's mock scenario fails — logging in with exactly
`demo@htpi.com` / `demo123` on a fresh connection does not succeed with user
`user-001`; it emits the service-unavailable failure (and a wrong credential
pair yields the same message, not one containing `Invalid credentials`). -/
theorem c6_counterexample :
    (handle_login stConn ("c1")
        (LoginData.mk (some ("demo@htpi.com")) (some ("demo123")))).2
      = [Delivery.mk ("c1") (Msg.authLoginErr ("Authentication service unavailable"))] ∧
    (handle_login stConn ("c1") (LoginData.mk (some ("x@y.z")) (some ("nope")))).2
      = [Delivery.mk ("c1") (Msg.authLoginErr ("Authentication service unavailable"))] := by
  decide

/-- Claim C6 (amended): the gateway implements no mock responder and no
fixed demo credential table; for every credential pair alike — demo or not —
`auth:login` emits exactly the `Authentication service unavailable` failure,
never a success with `user-001` and never a message containing
`Invalid credentials`. -/
theorem c6_no_mock_credentials (st : GatewayState) (cid : String) (e p : Option String) :
    (handle_login st cid (LoginData.mk e p)).2
      = [Delivery.mk cid (Msg.authLoginErr ("Authentication service unavailable"))] := by
  simp [handle_login, publish_to_nats_eq_none]

/-- Counterexample for C1: `stAuth` holds a connection that is authenticated
but has never completed `selectTenant` (its `tenant_id` is still absent and
it is in no tenant room); invoking `patients:add` with a bus-granted create
yields a `patients:add:response` carrying `success:true` and the created
patient — not a `NotAuthenticated` or tenant-scoped guard error. -/
theorem c1_counterexample :
    (alookup stAuth.connected_clients ("c1")).map ClientEntry.tenant_id = some none ∧
    (handle_add_patient stAuth ("c1") (some ("t1"))
        (some (CreateReply.mk true (some ("p1")) none))).2
      = [Delivery.mk ("c1") (Msg.patientsAddOk ("p1"))] := by
  decide

/-- Claim C1 (amended): the guard of `patients:add` checks only
authentication, never tenant selection — a connection that is absent or not
authenticated always gets exactly the `Not authenticated` error and never a
success, while an authenticated connection proceeds to the bus call even with
no tenant selected (and can then succeed, as the counterexample shows). -/
theorem c1_addPatient_guard_checks_only_auth (st : GatewayState) (cid : String)
    (tid : Option String) (r : Option CreateReply)
    (h : clientAuthed st cid = false) :
    handle_add_patient st cid tid r
      = (st, [Delivery.mk cid (Msg.errorMsg ("Not authenticated"))]) := by
  simp [handle_add_patient, h]

/-- Witness for C1's amended guard theorem at a concrete unauthenticated
connection. -/
theorem c1_witness :
    clientAuthed stEmpty ("cX") = false ∧
    handle_add_patient stEmpty ("cX") none none
      = (stEmpty, [Delivery.mk ("cX") (Msg.errorMsg ("Not authenticated"))]) :=
  ⟨by decide, c1_addPatient_guard_checks_only_auth stEmpty ("cX") none none (by decide)⟩

/-- Counterexample for C10: `auth:login` is a client event other than
`connect`/`disconnect`, yet for a connection that is not authenticated (the
freshly connected `c1`) it emits an `auth:login:response` event — no emitted
message is an `error` event — contradicting "emits only an error event". -/
theorem c10_counterexample :
    clientAuthed stConn ("c1") = false ∧
    (handle_login stConn ("c1") (LoginData.mk (some ("a@b.co")) (some ("pw")))).2
      = [Delivery.mk ("c1") (Msg.authLoginErr ("Authentication service unavailable"))] ∧
    ((handle_login stConn ("c1") (LoginData.mk (some ("a@b.co")) (some ("pw")))).2.all
        (fun d => match d.msg with
          | Msg.errorMsg _ => false
          | _ => true)) = true := by
  decide

/-- Claim C10 (amended): for every guarded client event — `user:tenants:list`,
`user:tenant:select`, `dashboard:subscribe`, `patients:subscribe`,
`patients:add`, i.e. all events except `connect`, `disconnect` and the
unguarded `auth:login` — a connection that is absent from the registry or not
authenticated receives exactly the `Not authenticated` error event and the
whole shared state (registry and all rooms) is returned unchanged. -/
theorem c10_guarded_handlers_reject (st : GatewayState) (cid : String)
    (h : clientAuthed st cid = false) :
    handle_list_tenants st cid
      = (st, [Delivery.mk cid (Msg.errorMsg ("Not authenticated"))]) ∧
    (∀ tid rep, handle_select_tenant st cid tid rep
      = (st, [Delivery.mk cid (Msg.errorMsg ("Not authenticated"))])) ∧
    (∀ tid sr ar, handle_dashboard_subscribe st cid tid sr ar
      = (st, [Delivery.mk cid (Msg.errorMsg ("Not authenticated"))])) ∧
    (∀ tid lr, handle_patients_subscribe st cid tid lr
      = (st, [Delivery.mk cid (Msg.errorMsg ("Not authenticated"))])) ∧
    (∀ tid cr, handle_add_patient st cid tid cr
      = (st, [Delivery.mk cid (Msg.errorMsg ("Not authenticated"))])) := by
  refine ⟨?_, ?_, ?_, ?_, ?_⟩ <;> intros <;>
    simp [handle_list_tenants, handle_select_tenant, handle_dashboard_subscribe,
          handle_patients_subscribe, handle_add_patient, h]

/-- Witness for C10's amended theorem at a concrete absent connection. -/
theorem c10_witness :
    handle_list_tenants stEmpty ("cY")
      = (stEmpty, [Delivery.mk ("cY") (Msg.errorMsg ("Not authenticated"))]) ∧
    handle_dashboard_subscribe stEmpty ("cY") (some ("t9")) none none
      = (stEmpty, [Delivery.mk ("cY") (Msg.errorMsg ("Not authenticated"))]) :=
  ⟨(c10_guarded_handlers_reject stEmpty ("cY") (by decide)).1,
   (c10_guarded_handlers_reject stEmpty ("cY") (by decide)).2.2.1 (some ("t9")) none none⟩

/-- Counterexample for C3: after the bus-driven authentication reply path
(`handle_auth_response`) the entry of `c1` is authenticated with user id
`user-001`, yet `c1` is not a member of room `user:user-001` — so the
"member of user:{U} iff authenticated" invariant fails on that path. -/
theorem c3_counterexample :
    clientAuthed stAuth ("c1") = true ∧
    clientUser stAuth ("c1") = some demoUser ∧
    ("c1" ∉ roomMembers stAuth ("user:user-001")) := by
  decide

/-- Claim C3 (amended): only `handle_login`'s (unreachable) success branch
joins `user:{id}`; the bus-driven reply path `handle_auth_response` never
touches any room — its resulting room tables are exactly the input's — while
on a successful reply for a registered client it does set the entry to an
authenticated record carrying the reply's user and token.  So "in room
user:{U} iff authenticated" does not survive the bus-driven path: only the
registry half of it is established there. -/
theorem c3_auth_response_authenticates_without_room (st : GatewayState) (d : AuthRespData) :
    (handle_auth_response st d).1.rooms = st.rooms ∧
    (∀ cid c, d.clientId = some cid → d.success = true →
      alookup st.connected_clients cid = some c →
      alookup (handle_auth_response st d).1.connected_clients cid
        = some ({ c with authenticated := true, user := d.user, token := d.token })) := by
  constructor
  · unfold handle_auth_response
    by_cases hs : d.success <;> simp [hs]
    cases hc : d.clientId with
    | none => rfl
    | some cid =>
      cases h2 : alookup st.connected_clients cid <;> simp [h2]
  · intro cid c hcid hs hreg
    simp [handle_auth_response, hs, hcid, hreg, alookup_aset_self]

/-- Witness for C3's amended theorem: the concrete bus reply that built
`stAuth` leaves the room tables of `stConn` untouched and authenticates the
entry of `c1`. -/
theorem c3_witness :
    (handle_auth_response stConn
        (AuthRespData.mk (some ("c1")) true (some demoUser) (some ("tok")) none)).1.rooms
      = stConn.rooms ∧
    alookup (handle_auth_response stConn
        (AuthRespData.mk (some ("c1")) true (some demoUser) (some ("tok")) none)).1.connected_clients ("c1")
      = some (ClientEntry.mk ("c1") true (some demoUser) (some ("tok")) none) :=
  ⟨(c3_auth_response_authenticates_without_room stConn
      (AuthRespData.mk (some ("c1")) true (some demoUser) (some ("tok")) none)).1,
   (c3_auth_response_authenticates_without_room stConn
      (AuthRespData.mk (some ("c1")) true (some demoUser) (some ("tok")) none)).2
      ("c1") (freshEntry ("c1")) rfl rfl (by decide)⟩

/-- After `c1` successfully selects tenant `tA`. -/
def stTenA : GatewayState :=
  (handle_select_tenant stAuth ("c1") (some ("tA")) (some true)).1

/-- After `c1` then successfully selects tenant `tB`. -/
def stTenB : GatewayState :=
  (handle_select_tenant stTenA ("c1") (some ("tB")) (some true)).1

/-- Counterexample for C2: after successfully selecting tenant `tA` and then
tenant `tB`, connection `c1` is simultaneously a member of `tenant:tA` and
`tenant:tB` — the second `selectTenant` did not remove it from the previously
joined tenant room, so the connection is in two tenant-scoped room sets at
once. -/
theorem c2_counterexample :
    ("c1" ∈ roomMembers stTenB ("tenant:tA")) ∧
    ("c1" ∈ roomMembers stTenB ("tenant:tB")) := by
  decide

/-- Claim C2 (amended): a successful `selectTenant` joins `tenant:{tenantId}`
and records the tenant id, but never leaves anything: no execution of
`handle_select_tenant` removes any connection from any room, so previously
joined tenant/dashboard/patients rooms are all retained and a connection can
belong to several tenant-scoped room sets. -/
theorem c2_selectTenant_never_leaves (st : GatewayState) (cid m r : String)
    (tid : Option String) (rep : Option Bool)
    (hm : m ∈ roomMembers st r) :
    m ∈ roomMembers (handle_select_tenant st cid tid rep).1 r := by
  unfold handle_select_tenant
  split
  · exact hm
  · split
    · split
      · exact hm
      · split
        · exact hm
        · split
          · rw [roomMembers_setClientTenant]
            exact mem_roomMembers_joinRoom st _ cid r hm
          · exact hm
    · exact hm

/-- Witness for C2's amended theorem: `c1` sits in its own sid room before a
successful tenant selection and is still there afterwards. -/
theorem c2_witness :
    ("c1" ∈ roomMembers stAuth ("c1")) ∧
    ("c1" ∈ roomMembers (handle_select_tenant stAuth ("c1") (some ("tA")) (some true)).1 ("c1")) :=
  ⟨by decide,
   c2_selectTenant_never_leaves stAuth ("c1") ("c1") ("c1") (some ("tA")) (some true) (by decide)⟩

/-- Claim C7: a bus reply for a connection that has been fully removed (its
registry entry deleted and its sid room emptied, which is what `disconnect`
leaves behind) is discarded by both NATS reply callbacks: nothing is
delivered and registry and rooms are returned exactly unchanged. -/
theorem c7_orphan_reply_discarded (st : GatewayState) (cid : String)
    (hreg : alookup st.connected_clients cid = none)
    (hroom : roomMembers st cid = []) :
    (∀ d : AuthRespData, d.clientId = some cid →
      handle_auth_response st d = (st, [])) ∧
    (∀ d : TenantRespData, d.clientId = some cid →
      handle_tenant_response st d = (st, [])) := by
  constructor
  · intro d hd
    by_cases hs : d.success <;>
      simp [handle_auth_response, hs, hd, hreg, emitToRoom, hroom]
  · intro d hd
    simp [handle_tenant_response, hd, emitToRoom, hroom]

/-- State after `c1` (connected, authenticated, in two tenant rooms)
disconnects. -/
def stGone : GatewayState := (handle_disconnect stTenB ("c1")).1

/-- Witness for C7: after `c1` disconnects, a late auth reply and a late
tenant-list reply addressed to it are both discarded without any effect. -/
theorem c7_witness :
    handle_auth_response stGone
        (AuthRespData.mk (some ("c1")) true (some demoUser) none none) = (stGone, []) ∧
    handle_tenant_response stGone
        (TenantRespData.mk (some ("c1")) [("tenant-001")]) = (stGone, []) :=
  ⟨(c7_orphan_reply_discarded stGone ("c1") (by decide) (by decide)).1
      (AuthRespData.mk (some ("c1")) true (some demoUser) none none) rfl,
   (c7_orphan_reply_discarded stGone ("c1") (by decide) (by decide)).2
      (TenantRespData.mk (some ("c1")) [("tenant-001")]) rfl⟩

/-- Claim C8: a `patients:add` whose create succeeds (authenticated caller
with a stored user, bus connected, reply `success:true` with a patient)
delivers the `patients:new` broadcast to every current member of room
`patients:{tenantId}` — the caller included whenever it is a member — and the
direct `patients:add:response` success carrying the created record to the
caller. -/
theorem c8_addPatient_broadcasts (st : GatewayState) (cid t p : String)
    (e : Option String) (u : User)
    (hauth : clientAuthed st cid = true)
    (huser : clientUser st cid = some u)
    (hnc : st.ncConnected = true) :
    (handle_add_patient st cid (some t) (some (CreateReply.mk true (some p) e))).2
      = (roomMembers st (("patients:" ++ t))).map (fun m => Delivery.mk m (Msg.patientsNew p))
        ++ [Delivery.mk cid (Msg.patientsAddOk p)] ∧
    Delivery.mk cid (Msg.patientsAddOk p)
      ∈ (handle_add_patient st cid (some t) (some (CreateReply.mk true (some p) e))).2 ∧
    ∀ m ∈ roomMembers st (("patients:" ++ t)),
      Delivery.mk m (Msg.patientsNew p)
        ∈ (handle_add_patient st cid (some t) (some (CreateReply.mk true (some p) e))).2 := by
  have h2 : (handle_add_patient st cid (some t) (some (CreateReply.mk true (some p) e))).2
      = (roomMembers st (("patients:" ++ t))).map (fun m => Delivery.mk m (Msg.patientsNew p))
        ++ [Delivery.mk cid (Msg.patientsAddOk p)] := by
    simp [handle_add_patient, hauth, huser, hnc]
  refine ⟨h2, ?_, ?_⟩
  · rw [h2]
    exact List.mem_append_right _ (List.mem_singleton.mpr rfl)
  · intro m hmem
    rw [h2]
    exact List.mem_append_left _ (List.mem_map_of_mem _ hmem)

/-- Two connections, both authenticated via the bus reply path. -/
def stW2 : GatewayState := (handle_connect stConn ("c2")).1

/-- Both authenticated. -/
def stW3 : GatewayState :=
  (handle_auth_response stW2 (AuthRespData.mk (some ("c1")) true (some demoUser) none none)).1

/-- Second connection authenticated too. -/
def stW4 : GatewayState :=
  (handle_auth_response stW3 (AuthRespData.mk (some ("c2")) true (some demoUser) none none)).1

/-- `c1` subscribed to patients of tenant `t1`. -/
def stW5 : GatewayState :=
  (handle_patients_subscribe stW4 ("c1") (some ("t1")) (some [])).1

/-- `c2` subscribed as well: room `patients:t1` holds `c1` and `c2`. -/
def stW6 : GatewayState :=
  (handle_patients_subscribe stW5 ("c2") (some ("t1")) (some [])).1

/-- Witness for C8: with `c1` and `c2` both in `patients:t1`, a successful
add by `c1` delivers `patients:new` to `c2` and to `c1` itself, plus the
direct success response to `c1`. -/
theorem c8_witness :
    ("c2" ∈ roomMembers stW6 ("patients:" ++ "t1")) ∧
    Delivery.mk ("c1") (Msg.patientsAddOk ("p1"))
      ∈ (handle_add_patient stW6 ("c1") (some ("t1"))
          (some (CreateReply.mk true (some ("p1")) none))).2 ∧
    Delivery.mk ("c2") (Msg.patientsNew ("p1"))
      ∈ (handle_add_patient stW6 ("c1") (some ("t1"))
          (some (CreateReply.mk true (some ("p1")) none))).2 ∧
    Delivery.mk ("c1") (Msg.patientsNew ("p1"))
      ∈ (handle_add_patient stW6 ("c1") (some ("t1"))
          (some (CreateReply.mk true (some ("p1")) none))).2 :=
  ⟨by decide,
   (c8_addPatient_broadcasts stW6 ("c1") ("t1") ("p1") none demoUser
      (by decide) (by decide) (by decide)).2.1,
   (c8_addPatient_broadcasts stW6 ("c1") ("t1") ("p1") none demoUser
      (by decide) (by decide) (by decide)).2.2 ("c2") (by decide),
   (c8_addPatient_broadcasts stW6 ("c1") ("t1") ("p1") none demoUser
      (by decide) (by decide) (by decide)).2.2 ("c1") (by decide)⟩
